import Mathlib

/-! Shallow embedding of the Istio validating-webhook controller
(pkg/webhooks/validation/controller/controller.go).

The controller is a level-triggered reconciliation loop.  Cluster caches, the
two watched local files, and the cluster API are modelled by an explicit
environment record (Env); a reconcile pass is the pure function
Controller.reconcileRequest over that environment, returning the retryable
error (if any), the final sticky readiness flag, the cluster API calls issued,
the observability signals emitted, and bookkeeping booleans recording which
gates read which cached objects.  External decoders (the package codec for the
template, the PEM decoder and the X.509 parser from the Go standard library)
are parameters gathered in a Codec record, since their internals are outside
this repository.
-/

/-- Raw file or bundle contents, a Go byte slice. -/
abbrev Bytes := List Nat

/-- admissionregistration.k8s.io/v1beta1 FailurePolicyType. -/
inductive FailurePolicyType where
  | Ignore
  | Fail
deriving DecidableEq, Repr

/-- admissionregistration.k8s.io/v1beta1 SideEffectClass. -/
inductive SideEffectClass where
  | Unknown
  | None
  | Some
  | NoneOnDryRun
deriving DecidableEq, Repr

/-- metav1.LabelSelector; the zero value (both lists empty) matches all namespaces. -/
structure LabelSelector where
  matchLabels : List (String × String)
  matchExpressions : List String
deriving DecidableEq, Repr

/-- metav1.OwnerReference. -/
structure OwnerReference where
  apiVersion : String
  kind : String
  name : String
  uid : String
  controller : Option Bool
deriving DecidableEq, Repr

/-- admissionregistration.k8s.io/v1beta1 ServiceReference. -/
structure ServiceReference where
  namespaceName : String
  name : String
  path : Option String
deriving DecidableEq, Repr

/-- admissionregistration.k8s.io/v1beta1 WebhookClientConfig. -/
structure WebhookClientConfig where
  url : Option String
  service : Option ServiceReference
  caBundle : Bytes
deriving DecidableEq, Repr

/-- admissionregistration.k8s.io/v1beta1 RuleWithOperations. -/
structure RuleWithOperations where
  operations : List String
  apiGroups : List String
  apiVersions : List String
  resources : List String
deriving DecidableEq, Repr

/-- admissionregistration.k8s.io/v1beta1 Webhook (an entry of the config). -/
structure Webhook where
  name : String
  clientConfig : WebhookClientConfig
  rules : List RuleWithOperations
  failurePolicy : Option FailurePolicyType
  namespaceSelector : Option LabelSelector
  sideEffects : Option SideEffectClass
deriving DecidableEq, Repr

/-- metav1.ObjectMeta, restricted to the fields the controller can observe or
overwrite; resourceVersion, uid and labels stand for the server-managed
metadata that an update must preserve. -/
structure ObjectMeta where
  name : String
  namespaceName : String
  resourceVersion : String
  uid : String
  labels : List (String × String)
  ownerReferences : List OwnerReference
deriving DecidableEq, Repr

/-- admissionregistration.k8s.io/v1beta1 ValidatingWebhookConfiguration. -/
structure ValidatingWebhookConfiguration where
  metadata : ObjectMeta
  webhooks : List Webhook
deriving DecidableEq, Repr

/-- corev1 EndpointAddress. -/
structure EndpointAddress where
  ip : String
deriving DecidableEq, Repr

/-- corev1 EndpointSubset. -/
structure EndpointSubset where
  addresses : List EndpointAddress
  notReadyAddresses : List EndpointAddress
deriving DecidableEq, Repr

/-- corev1 Endpoints. -/
structure Endpoints where
  subsets : List EndpointSubset
deriving DecidableEq, Repr

/-- appsv1 DeploymentSpec; Replicas is a nilable int32 pointer. -/
structure DeploymentSpec where
  replicas : Option Int
deriving DecidableEq, Repr

/-- appsv1 Deployment. -/
structure Deployment where
  spec : DeploymentSpec
deriving DecidableEq, Repr

/-- Result of a lister Get against a shared-informer cache: the object, a
kubeErrors.IsNotFound error, or some other lookup error. -/
inductive CacheLookup (α : Type) where
  | found (obj : α)
  | notFound
  | lookupError (msg : String)
deriving DecidableEq, Repr

/-- The configError type of the controller: an underlying error message plus a
machine-readable reason used to key the observability signal. -/
structure ConfigError where
  message : String
  reason : String
deriving DecidableEq, Repr

/-- A transient cluster-API call failure: the error text returned to the
caller and the kubeErrors.ReasonForError status reason used in signals. -/
structure ApiError where
  message : String
  reason : String
deriving DecidableEq, Repr

/-- A decoded PEM block (encoding/pem Block); blockType is the Type field. -/
structure PemBlock where
  blockType : String
  bytes : Bytes
  headers : List (String × String)
deriving DecidableEq, Repr

/-- The external decoding machinery used by the desired-state builder: the
package codec for the template bytes, pem.Decode (returning the first block
and the rest of the input), and x509.ParseCertificate (of which only the error
outcome is observed: some msg is a parse failure, none is success). -/
structure Codec where
  decode : Bytes → Except String ValidatingWebhookConfiguration
  pemDecode : Bytes → Option (PemBlock × Bytes)
  parseCertificate : Bytes → Option String

/-- Options of the controller (the kube client handle is omitted; the API
behaviour it mediates lives in Env instead). -/
structure Options where
  watchedNamespace : String
  resyncPeriod : Nat
  caPath : String
  webhookConfigName : String
  webhookConfigPath : String
  serviceName : String
  galleyDeploymentName : String
  clusterRoleName : String
  unregisterValidationWebhook : Bool
deriving DecidableEq, Repr

/-- Go lowercase letter or digit. -/
def isLowerAlnum (c : Char) : Bool :=
  (decide (97 ≤ c.toNat) && decide (c.toNat ≤ 122)) ||
    (decide (48 ≤ c.toNat) && decide (c.toNat ≤ 57))

/-- Character allowed inside a DNS-1123 label. -/
def isDNS1123Char (c : Char) : Bool :=
  isLowerAlnum c || decide (c = '-')

/-- Modelled from the spec: the repository function labels.IsDNS1123Label
(package pkg/config/labels, imported by the controller but not present under
src/).  The spec requires names to be valid DNS-label strings: at most 63
characters, lowercase alphanumerics and dashes only, beginning and ending with
an alphanumeric (the RFC 1123 label shape the Kubernetes validation regexp
encodes). -/
def IsDNS1123Label (value : String) : Bool :=
  let cs := value.toList
  decide (value.length ≤ 63) &&
  (match cs with
   | [] => false
   | c :: _ => isLowerAlnum c) &&
  (match cs.getLast? with
   | Option.none => false
   | Option.some c => isLowerAlnum c) &&
  cs.all isDNS1123Char

/-- Rendering of the Go format verb %q for the names interpolated into the
validation messages (names contain no characters needing escapes). -/
def goQuote (s : String) : String := "\"" ++ s ++ "\""

/-- hashicorp go-multierror Append on a possibly-nil list pointer: a nil
pointer becomes a fresh one-element error list. -/
def multierrorAppend (errs : Option (List String)) (e : String) : Option (List String) :=
  match errs with
  | Option.none => Option.some [e]
  | Option.some l => Option.some (l ++ [e])

/-- A Go error interface value as returned by Options.Validate: either the nil
interface, or an interface wrapping a concrete multierror pointer, which may
itself be the nil pointer (carrying no error list). -/
inductive GoError where
  | nilInterface
  | multiError (errs : Option (List String))
deriving DecidableEq, Repr

/-- Options.Validate.  Each violated constraint appends one error; the final
statement returns the accumulated multierror pointer wrapped in the error
interface.  Because the Go code returns the typed pointer (and not
ErrorOrNil), the interface value is never the nil interface, even when the
pointer inside it is nil. -/
def Options.Validate (o : Options) : GoError :=
  let errs : Option (List String) := Option.none
  let errs := if o.webhookConfigName == "" || !(IsDNS1123Label o.webhookConfigName) then
      multierrorAppend errs ("invalid webhook name: " ++ goQuote o.webhookConfigName)
    else errs
  let errs := if o.watchedNamespace == "" || !(IsDNS1123Label o.watchedNamespace) then
      multierrorAppend errs ("invalid namespace: " ++ goQuote o.watchedNamespace)
    else errs
  let errs := if o.galleyDeploymentName != "" && !(IsDNS1123Label o.galleyDeploymentName) then
      multierrorAppend errs ("invalid deployment name: " ++ goQuote o.galleyDeploymentName)
    else errs
  let errs := if o.serviceName == "" || !(IsDNS1123Label o.serviceName) then
      multierrorAppend errs ("invalid service name: " ++ goQuote o.serviceName)
    else errs
  let errs := if o.caPath == "" then
      multierrorAppend errs "CA cert file not specified"
    else errs
  let errs := if o.webhookConfigPath == "" then
      multierrorAppend errs "webhook config file not specified"
    else errs
  GoError.multiError errs

/-- The controller state a reconcile pass reads: its options, the owner
references resolved at construction, and the sticky readiness flag. -/
structure Controller where
  o : Options
  ownerRefs : List OwnerReference
  endpointReadyOnce : Bool
deriving Repr

/-- The ambient world of one reconcile pass: the informer-cache lookups for
the three watched objects, the two file reads, the would-be outcome of each
cluster API write (none is success), and the external decoders. -/
structure Env where
  codec : Codec
  endpoints : CacheLookup Endpoints
  galley : CacheLookup Deployment
  currentConfig : Option ValidatingWebhookConfiguration
  readWebhookConfigFile : Except String Bytes
  readCAFile : Except String Bytes
  deleteOutcome : Option ApiError
  createOutcome : Option ApiError
  updateOutcome : Option ApiError

/-- Cluster API calls a reconcile pass can issue against the webhook resource. -/
inductive ApiCall where
  | delete
  | create (config : ValidatingWebhookConfiguration)
  | update (config : ValidatingWebhookConfiguration)
deriving DecidableEq, Repr

/-- Observability signals (the report functions of the monitoring package). -/
inductive Signal where
  | validationConfigLoadError (reason : String)
  | validationConfigDeleteError (reason : String)
  | validationConfigUpdateError (reason : String)
  | validationConfigUpdate
deriving DecidableEq, Repr

/-- Everything one reconcile pass produced: the error handed back to the work
queue (none mirrors a nil Go error), the final sticky flag, the API calls and
signals in order, whether the desired-state build step ran, and which cached
objects the gates read. -/
structure ReconcileResult where
  error : Option String
  endpointReadyOnce : Bool
  calls : List ApiCall
  signals : List Signal
  builtDesired : Bool
  readEndpoints : Bool
  readGalley : Bool
  readTarget : Bool
deriving DecidableEq, Repr

/-- Error, calls and signals of one apply-path helper. -/
structure ApplyResult where
  error : Option String
  calls : List ApiCall
  signals : List Signal
deriving DecidableEq, Repr

/-- Free function isEndpointReady: no subsets means not ready; otherwise ready
exactly when some subset has at least one address. -/
def isEndpointReady (endpoint : Endpoints) : Bool × String :=
  if endpoint.subsets.isEmpty then
    (false, "no subsets")
  else if endpoint.subsets.any (fun subset => decide (0 < subset.addresses.length)) then
    (true, "")
  else
    (false, "no subset addresses ready")

/-- Alias used by the method of the same source name. -/
def isEndpointReadyFn : Endpoints → Bool × String := isEndpointReady

/-- Method isEndpointReady: lister lookup of the Endpoints object for the
configured service; IsNotFound is not an error and means not ready. -/
def Controller.isEndpointReady (env : Env) : Except String Bool :=
  match env.endpoints with
  | CacheLookup.lookupError e => Except.error e
  | CacheLookup.notFound => Except.ok false
  | CacheLookup.found endpoint => Except.ok (isEndpointReadyFn endpoint).fst

/-- Method isGalleyDeploymentRunning: lister lookup of the galley Deployment;
IsNotFound means not running; a nil or zero replica count means not running. -/
def Controller.isGalleyDeploymentRunning (env : Env) : Except String Bool :=
  match env.galley with
  | CacheLookup.lookupError e => Except.error e
  | CacheLookup.notFound => Except.ok false
  | CacheLookup.found galley =>
    match galley.spec.replicas with
    | Option.none => Except.ok false
    | Option.some n => if n = 0 then Except.ok false else Except.ok true

/-- verifyCABundle: the bundle must yield a PEM block, of type CERTIFICATE,
whose bytes parse as an X.509 certificate; some msg is the Go error. -/
def verifyCABundle (k : Codec) (caBundle : Bytes) : Option String :=
  match k.pemDecode caBundle with
  | Option.none => Option.some "could not decode pem"
  | Option.some (block, _) =>
    if block.blockType ≠ "CERTIFICATE" then
      Option.some ("cert contains wrong pem type: " ++ goQuote block.blockType)
    else
      match k.parseCertificate block.bytes with
      | Option.some e => Option.some ("cert contains invalid x509 certificate: " ++ e)
      | Option.none => Option.none

/-- The default-filling loop body of decodeValidatingConfig: a missing failure
policy becomes Fail, a missing namespace selector the empty selector, a
missing side-effects classification Unknown. -/
def fillWebhookDefaults (w : Webhook) : Webhook :=
  { w with
    failurePolicy :=
      match w.failurePolicy with
      | Option.none => Option.some FailurePolicyType.Fail
      | p => p,
    namespaceSelector :=
      match w.namespaceSelector with
      | Option.none => Option.some { matchLabels := [], matchExpressions := [] }
      | s => s,
    sideEffects :=
      match w.sideEffects with
      | Option.none => Option.some SideEffectClass.Unknown
      | s => s }

/-- decodeValidatingConfig: codec decode of the template bytes, then the
default-filling loop over the webhook entries. -/
def decodeValidatingConfig (k : Codec) (encoded : Bytes) :
    Except String ValidatingWebhookConfiguration :=
  match k.decode encoded with
  | Except.error e => Except.error e
  | Except.ok config =>
    Except.ok { config with webhooks := config.webhooks.map fillWebhookDefaults }

/-- Free function buildValidatingWebhookConfiguration: decode the template
(ConfigError with the decode reason on failure), verify the CA bundle
(ConfigError with the verify reason on failure), then stamp the owner
references and, on every entry, the CA bundle bytes. -/
def buildValidatingWebhookConfiguration (k : Codec) (caBundle webhook : Bytes)
    (ownerRefs : List OwnerReference) :
    Except ConfigError ValidatingWebhookConfiguration :=
  match decodeValidatingConfig k webhook with
  | Except.error e =>
    Except.error { message := e, reason := "could not decode validatingwebhookconfiguration file" }
  | Except.ok config =>
    match verifyCABundle k caBundle with
    | Option.some e => Except.error { message := e, reason := "could not verify caBundle" }
    | Option.none =>
      Except.ok { config with
        metadata := { config.metadata with ownerReferences := ownerRefs },
        webhooks := config.webhooks.map
          (fun w => { w with clientConfig := { w.clientConfig with caBundle := caBundle } }) }

/-- Alias used by the method of the same source name. -/
def buildValidatingWebhookConfigurationFn :
    Codec → Bytes → Bytes → List OwnerReference →
    Except ConfigError ValidatingWebhookConfiguration :=
  buildValidatingWebhookConfiguration

/-- Method buildValidatingWebhookConfiguration: read the template file, read
the CA file (each read failure is a ConfigError with its own reason), then the
free build function. -/
def Controller.buildValidatingWebhookConfiguration (c : Controller) (env : Env) :
    Except ConfigError ValidatingWebhookConfiguration :=
  match env.readWebhookConfigFile with
  | Except.error e =>
    Except.error { message := e, reason := "could not read validatingwebhookconfiguration file" }
  | Except.ok webhook =>
    match env.readCAFile with
    | Except.error e =>
      Except.error { message := e, reason := "could not read caBundle file" }
    | Except.ok caBundle =>
      buildValidatingWebhookConfigurationFn env.codec caBundle webhook c.ownerRefs

/-- deleteValidatingWebhookConfiguration: one delete call; a failure is
reported through the delete-error signal and returned to the caller. -/
def Controller.deleteValidatingWebhookConfiguration (env : Env) : ApplyResult :=
  match env.deleteOutcome with
  | Option.some e =>
    { error := Option.some e.message,
      calls := [ApiCall.delete],
      signals := [Signal.validationConfigDeleteError e.reason] }
  | Option.none =>
    { error := Option.none, calls := [ApiCall.delete], signals := [] }

/-- The updated copy built inside updateValidatingWebhookConfiguration: a deep
copy of current with only the webhook list and the owner references replaced
by the desired values. -/
def updatedCopy (current desired : ValidatingWebhookConfiguration) :
    ValidatingWebhookConfiguration :=
  { current with
    webhooks := desired.webhooks,
    metadata := { current.metadata with ownerReferences := desired.metadata.ownerReferences } }

/-- updateValidatingWebhookConfiguration: cache lookup of the current
resource; if absent, create desired as-is; if present, build the updated copy
and issue an update call only when it differs structurally from current
(reflect.DeepEqual); successes, including the no-diff skip, emit the
update-success signal, failures the update-error signal. -/
def Controller.updateValidatingWebhookConfiguration (env : Env)
    (desired : ValidatingWebhookConfiguration) : ApplyResult :=
  match env.currentConfig with
  | Option.none =>
    match env.createOutcome with
    | Option.some e =>
      { error := Option.some e.message,
        calls := [ApiCall.create desired],
        signals := [Signal.validationConfigUpdateError e.reason] }
    | Option.none =>
      { error := Option.none,
        calls := [ApiCall.create desired],
        signals := [Signal.validationConfigUpdate] }
  | Option.some current =>
    let updated := updatedCopy current desired
    if updated = current then
      { error := Option.none, calls := [], signals := [Signal.validationConfigUpdate] }
    else
      match env.updateOutcome with
      | Option.some e =>
        { error := Option.some e.message,
          calls := [ApiCall.update updated],
          signals := [Signal.validationConfigUpdateError e.reason] }
      | Option.none =>
        { error := Option.none,
          calls := [ApiCall.update updated],
          signals := [Signal.validationConfigUpdate] }

/-- The tail of reconcileRequest after both gates: the unregister branch
issues the delete; the converge branch builds the desired state (a ConfigError
is reported through the config-load-error signal and absorbed) and applies it. -/
def Controller.reconcileAfterGalleyGate (c : Controller) (env : Env) : ReconcileResult :=
  if c.o.unregisterValidationWebhook then
    let r := Controller.deleteValidatingWebhookConfiguration env
    { error := r.error, endpointReadyOnce := c.endpointReadyOnce, calls := r.calls,
      signals := r.signals, builtDesired := false, readEndpoints := false,
      readGalley := false, readTarget := false }
  else
    match Controller.buildValidatingWebhookConfiguration c env with
    | Except.error ce =>
      { error := Option.none, endpointReadyOnce := c.endpointReadyOnce, calls := [],
        signals := [Signal.validationConfigLoadError ce.reason], builtDesired := true,
        readEndpoints := false, readGalley := false, readTarget := false }
    | Except.ok desired =>
      let r := Controller.updateValidatingWebhookConfiguration env desired
      { error := r.error, endpointReadyOnce := c.endpointReadyOnce, calls := r.calls,
        signals := r.signals, builtDesired := true, readEndpoints := false,
        readGalley := false, readTarget := true }

/-- The middle of reconcileRequest: the legacy-ownership gate, entered only
when a galley deployment name is configured; a running galley defers the pass
with no error. -/
def Controller.reconcileAfterReadinessGate (c : Controller) (env : Env) : ReconcileResult :=
  if c.o.galleyDeploymentName ≠ "" then
    match Controller.isGalleyDeploymentRunning env with
    | Except.error e =>
      { error := Option.some e, endpointReadyOnce := c.endpointReadyOnce, calls := [],
        signals := [], builtDesired := false, readEndpoints := false, readGalley := true,
        readTarget := false }
    | Except.ok true =>
      { error := Option.none, endpointReadyOnce := c.endpointReadyOnce, calls := [],
        signals := [], builtDesired := false, readEndpoints := false, readGalley := true,
        readTarget := false }
    | Except.ok false =>
      { Controller.reconcileAfterGalleyGate c env with readGalley := true }
  else
    Controller.reconcileAfterGalleyGate c env

/-- reconcileRequest: the readiness gate runs only while the sticky flag is
false; not-ready (including a not-found Endpoints object) completes the pass
with no error; once ready the flag is set true and the pass proceeds through
the legacy gate to the unregister or converge branch. -/
def Controller.reconcileRequest (c : Controller) (env : Env) : ReconcileResult :=
  if c.endpointReadyOnce then
    Controller.reconcileAfterReadinessGate c env
  else
    match Controller.isEndpointReady env with
    | Except.error e =>
      { error := Option.some e, endpointReadyOnce := false, calls := [], signals := [],
        builtDesired := false, readEndpoints := true, readGalley := false,
        readTarget := false }
    | Except.ok false =>
      { error := Option.none, endpointReadyOnce := false, calls := [], signals := [],
        builtDesired := false, readEndpoints := true, readGalley := false,
        readTarget := false }
    | Except.ok true =>
      { Controller.reconcileAfterReadinessGate { c with endpointReadyOnce := true } env with
          readEndpoints := true }

/-- What processNextWorkItem does with the reconcile outcome: a non-nil error
is re-enqueued rate-limited, a nil error is forgotten (retry state reset). -/
inductive QueueAction where
  | forget
  | addRateLimited
deriving DecidableEq, Repr

/-- The queue disposition processNextWorkItem derives from the error returned
by reconcileRequest. -/
def processNextWorkItemAction (reconcileError : Option String) : QueueAction :=
  match reconcileError with
  | Option.some _ => QueueAction.addRateLimited
  | Option.none => QueueAction.forget

/-- The pass reaches past the readiness gate: the sticky flag is already true,
or the endpoint lookup reports ready. -/
def passesReadinessGate (c : Controller) (env : Env) : Prop :=
  c.endpointReadyOnce = true ∨ Controller.isEndpointReady env = Except.ok true

/-- The pass reaches past the legacy-ownership gate: no galley deployment name
is configured, or the galley deployment is not running. -/
def passesGalleyGate (c : Controller) (env : Env) : Prop :=
  c.o.galleyDeploymentName = "" ∨ Controller.isGalleyDeploymentRunning env = Except.ok false

/-- Observation: the reason tag of a failed build, none on success. -/
def buildReason (r : Except ConfigError ValidatingWebhookConfiguration) : Option String :=
  match r with
  | Except.error ce => Option.some ce.reason
  | Except.ok _ => Option.none

/-- Observation: a decode succeeded and every entry carries a failure policy,
a namespace selector and a side-effects classification. -/
def decodedDefaultsFilled (r : Except String ValidatingWebhookConfiguration) : Bool :=
  match r with
  | Except.error _ => false
  | Except.ok config =>
    config.webhooks.all
      (fun w => w.failurePolicy.isSome && w.namespaceSelector.isSome && w.sideEffects.isSome)

/-- Observation: a build succeeded and every entry carries the given CA
bundle bytes verbatim in its client config. -/
def builtCABundlesAll (r : Except ConfigError ValidatingWebhookConfiguration)
    (ca : Bytes) : Bool :=
  match r with
  | Except.error _ => false
  | Except.ok config => config.webhooks.all (fun w => w.clientConfig.caBundle == ca)

/-- Concrete client config used by the evaluation witnesses. -/
def demoClientConfig : WebhookClientConfig :=
  { url := Option.none,
    service := Option.some
      { namespaceName := "istio-system", name := "istio-galley", path := Option.some "/admitpilot" },
    caBundle := [] }

/-- Concrete admission rule used by the evaluation witnesses. -/
def demoRule : RuleWithOperations :=
  { operations := ["CREATE", "UPDATE"], apiGroups := ["config.istio.io"],
    apiVersions := ["v1alpha2"], resources := ["*"] }

/-- Concrete webhook entry omitting all three defaulted fields. -/
def demoWebhookEntry : Webhook :=
  { name := "pilot.validation.istio.io", clientConfig := demoClientConfig, rules := [demoRule],
    failurePolicy := Option.none, namespaceSelector := Option.none, sideEffects := Option.none }

/-- Concrete metadata with server-managed fields populated. -/
def demoMeta : ObjectMeta :=
  { name := "istio-galley", namespaceName := "", resourceVersion := "42", uid := "uid-1",
    labels := [("app", "galley")], ownerReferences := [] }

/-- Concrete configuration as decoded from a template. -/
def demoConfig : ValidatingWebhookConfiguration :=
  { metadata := demoMeta, webhooks := [demoWebhookEntry] }

/-- Decoders for which every input decodes to demoConfig, every bundle is a
CERTIFICATE block, and every certificate parses. -/
def demoCodecOk : Codec :=
  { decode := fun _ => Except.ok demoConfig,
    pemDecode := fun bs => Option.some ({ blockType := "CERTIFICATE", bytes := bs, headers := [] }, []),
    parseCertificate := fun _ => Option.none }

/-- Decoders for which no input yields a PEM block. -/
def demoCodecBadPem : Codec :=
  { demoCodecOk with pemDecode := fun _ => Option.none }

/-- Decoders for which no template bytes decode. -/
def demoCodecBadDecode : Codec :=
  { demoCodecOk with decode := fun _ => Except.error "yaml: unmarshal errors" }

/-- Fully valid controller options. -/
def demoOptions : Options :=
  { watchedNamespace := "istio-system", resyncPeriod := 0,
    caPath := "/etc/istio/certs/root-cert.pem", webhookConfigName := "istio-galley",
    webhookConfigPath := "/etc/istio/config/validating.yaml", serviceName := "istio-galley",
    galleyDeploymentName := "", clusterRoleName := "istio-galley-role",
    unregisterValidationWebhook := false }

/-- Options violating every constraint: empty names and paths and an invalid
(uppercase) deployment name. -/
def demoOptionsInvalid : Options :=
  { watchedNamespace := "", resyncPeriod := 0, caPath := "", webhookConfigName := "",
    webhookConfigPath := "", serviceName := "", galleyDeploymentName := "Galley",
    clusterRoleName := "", unregisterValidationWebhook := false }

/-- Baseline environment: empty caches, readable files, succeeding API calls. -/
def demoEnvBase : Env :=
  { codec := demoCodecOk, endpoints := CacheLookup.notFound, galley := CacheLookup.notFound,
    currentConfig := Option.none, readWebhookConfigFile := Except.ok [7],
    readCAFile := Except.ok [1, 2], deleteOutcome := Option.none, createOutcome := Option.none,
    updateOutcome := Option.none }

/-- Fresh controller, readiness flag still false. -/
def demoController : Controller :=
  { o := demoOptions, ownerRefs := [], endpointReadyOnce := false }

/-- Controller whose readiness flag is already true. -/
def demoControllerReady : Controller :=
  { o := demoOptions, ownerRefs := [], endpointReadyOnce := true }

/-- Ready controller configured with a galley deployment name. -/
def demoControllerGalley : Controller :=
  { o := { demoOptions with galleyDeploymentName := "galley" }, ownerRefs := [],
    endpointReadyOnce := true }

/-- Ready controller with the unregister flag set. -/
def demoControllerUnregister : Controller :=
  { o := { demoOptions with unregisterValidationWebhook := true }, ownerRefs := [],
    endpointReadyOnce := true }

/-- Environment where the galley deployment runs two replicas. -/
def demoEnvGalleyRunning : Env :=
  { demoEnvBase with galley := CacheLookup.found { spec := { replicas := Option.some 2 } } }

/-- Environment whose template bytes fail to decode. -/
def demoEnvBadDecode : Env :=
  { demoEnvBase with codec := demoCodecBadDecode }

/-- Environment where reading the template file fails. -/
def demoEnvBadFile : Env :=
  { demoEnvBase with readWebhookConfigFile := Except.error "read failure" }

/-- Environment where reading the CA bundle file fails. -/
def demoEnvBadCAFile : Env :=
  { demoEnvBase with readCAFile := Except.error "ca read failure" }

/-- Environment where the delete API call fails. -/
def demoEnvDeleteFails : Env :=
  { demoEnvBase with
    deleteOutcome := Option.some { message := "delete failed", reason := "InternalError" } }

/-- Environment whose cache already holds demoConfig as the current resource. -/
def demoEnvWithCurrent : Env :=
  { demoEnvBase with currentConfig := Option.some demoConfig }

/-- The free readiness check returns true exactly when some subset has at
least one address. -/
theorem isEndpointReady_fst_true_iff (ep : Endpoints) :
    (isEndpointReady ep).fst = true ↔ ∃ s ∈ ep.subsets, s.addresses ≠ [] := by
  rcases ep with ⟨subsets⟩
  by_cases h : subsets = []
  · subst h
    simp [isEndpointReady]
  · have hfst : (isEndpointReady ⟨subsets⟩).fst
        = subsets.any (fun subset => decide (0 < subset.addresses.length)) := by
      by_cases ha : subsets.any (fun subset => decide (0 < subset.addresses.length)) <;>
        simp [isEndpointReady, List.isEmpty_iff, h, ha]
    rw [hfst]
    simp [List.any_eq_true, List.length_pos_iff_ne_nil]

/-- The converge tail keeps the sticky flag and reads neither the endpoint
nor the galley caches. -/
theorem afterGalleyGate_bookkeeping (c : Controller) (env : Env) :
    (Controller.reconcileAfterGalleyGate c env).endpointReadyOnce = c.endpointReadyOnce ∧
    (Controller.reconcileAfterGalleyGate c env).readEndpoints = false ∧
    (Controller.reconcileAfterGalleyGate c env).readGalley = false := by
  by_cases h : c.o.unregisterValidationWebhook
  · simp [Controller.reconcileAfterGalleyGate, h]
  · rcases hb : Controller.buildValidatingWebhookConfiguration c env with ce | desired <;>
      simp [Controller.reconcileAfterGalleyGate, h, hb]

/-- The galley-gate stage keeps the sticky flag and never reads the endpoint
cache. -/
theorem afterReadinessGate_bookkeeping (c : Controller) (env : Env) :
    (Controller.reconcileAfterReadinessGate c env).endpointReadyOnce = c.endpointReadyOnce ∧
    (Controller.reconcileAfterReadinessGate c env).readEndpoints = false := by
  by_cases h : c.o.galleyDeploymentName = ""
  · simp only [Controller.reconcileAfterReadinessGate, h]
    simp only [ne_eq, not_true_eq_false, if_false]
    exact ⟨(afterGalleyGate_bookkeeping c env).1, (afterGalleyGate_bookkeeping c env).2.1⟩
  · cases hg : Controller.isGalleyDeploymentRunning env with
    | error e => simp [Controller.reconcileAfterReadinessGate, h, hg]
    | ok b =>
      cases b
      · simp [Controller.reconcileAfterReadinessGate, h, hg]
        exact ⟨(afterGalleyGate_bookkeeping c env).1, (afterGalleyGate_bookkeeping c env).2.1⟩
      · simp [Controller.reconcileAfterReadinessGate, h, hg]

/-- When the legacy gate passes, the galley-gate stage behaves as the converge
tail on everything except gate bookkeeping. -/
theorem afterReadinessGate_projections (c : Controller) (env : Env)
    (h : passesGalleyGate c env) :
    (Controller.reconcileAfterReadinessGate c env).error =
      (Controller.reconcileAfterGalleyGate c env).error ∧
    (Controller.reconcileAfterReadinessGate c env).calls =
      (Controller.reconcileAfterGalleyGate c env).calls ∧
    (Controller.reconcileAfterReadinessGate c env).signals =
      (Controller.reconcileAfterGalleyGate c env).signals ∧
    (Controller.reconcileAfterReadinessGate c env).builtDesired =
      (Controller.reconcileAfterGalleyGate c env).builtDesired ∧
    (Controller.reconcileAfterReadinessGate c env).readTarget =
      (Controller.reconcileAfterGalleyGate c env).readTarget := by
  by_cases hn : c.o.galleyDeploymentName = ""
  · simp [Controller.reconcileAfterReadinessGate, hn]
  · have hg : Controller.isGalleyDeploymentRunning env = Except.ok false := by
      rcases h with h | h
      · exact absurd h hn
      · exact h
    simp [Controller.reconcileAfterReadinessGate, hn, hg]

/-- When the readiness gate passes, the pass behaves as the galley-gate stage
of the flag-true controller on everything except gate bookkeeping. -/
theorem reconcileRequest_pastReadiness (c : Controller) (env : Env)
    (h : passesReadinessGate c env) :
    (c.reconcileRequest env).error =
      (Controller.reconcileAfterReadinessGate { c with endpointReadyOnce := true } env).error ∧
    (c.reconcileRequest env).calls =
      (Controller.reconcileAfterReadinessGate { c with endpointReadyOnce := true } env).calls ∧
    (c.reconcileRequest env).signals =
      (Controller.reconcileAfterReadinessGate { c with endpointReadyOnce := true } env).signals ∧
    (c.reconcileRequest env).builtDesired =
      (Controller.reconcileAfterReadinessGate { c with endpointReadyOnce := true } env).builtDesired ∧
    (c.reconcileRequest env).readTarget =
      (Controller.reconcileAfterReadinessGate { c with endpointReadyOnce := true } env).readTarget := by
  cases hb : c.endpointReadyOnce
  · have hr : Controller.isEndpointReady env = Except.ok true := by
      rcases h with h | h
      · rw [hb] at h
        exact absurd h (by simp)
      · exact h
    simp [Controller.reconcileRequest, hb, hr]
  · have hc : ({ c with endpointReadyOnce := true } : Controller) = c := by
      cases c
      simp_all
    rw [hc]
    simp [Controller.reconcileRequest, hb]

/-- When both gates pass, the pass behaves as the converge tail of the
flag-true controller on everything except gate bookkeeping. -/
theorem reconcileRequest_converge (c : Controller) (env : Env)
    (h1 : passesReadinessGate c env) (h2 : passesGalleyGate c env) :
    (c.reconcileRequest env).error =
      (Controller.reconcileAfterGalleyGate { c with endpointReadyOnce := true } env).error ∧
    (c.reconcileRequest env).calls =
      (Controller.reconcileAfterGalleyGate { c with endpointReadyOnce := true } env).calls ∧
    (c.reconcileRequest env).signals =
      (Controller.reconcileAfterGalleyGate { c with endpointReadyOnce := true } env).signals ∧
    (c.reconcileRequest env).builtDesired =
      (Controller.reconcileAfterGalleyGate { c with endpointReadyOnce := true } env).builtDesired ∧
    (c.reconcileRequest env).readTarget =
      (Controller.reconcileAfterGalleyGate { c with endpointReadyOnce := true } env).readTarget := by
  obtain ⟨e1, c1, s1, b1, t1⟩ := reconcileRequest_pastReadiness c env h1
  have h2b : passesGalleyGate { c with endpointReadyOnce := true } env := h2
  obtain ⟨e2, c2, s2, b2, t2⟩ :=
    afterReadinessGate_projections { c with endpointReadyOnce := true } env h2b
  exact ⟨e1.trans e2, c1.trans c2, s1.trans s2, b1.trans b2, t1.trans t2⟩

/-- The galley deployment counts as running exactly on a cache hit with a
non-nil, nonzero replica count. -/
theorem isGalleyDeploymentRunning_true_of (env : Env) (d : Deployment) (n : Int)
    (h : env.galley = CacheLookup.found d) (hr : d.spec.replicas = Option.some n)
    (hn : n ≠ 0) :
    Controller.isGalleyDeploymentRunning env = Except.ok true := by
  simp [Controller.isGalleyDeploymentRunning, h, hr, hn]

/-- An absent galley deployment, or one with a nil or zero replica count,
does not count as running. -/
theorem isGalleyDeploymentRunning_false_of (env : Env)
    (h : env.galley = CacheLookup.notFound ∨
      ∃ d, env.galley = CacheLookup.found d ∧
        (d.spec.replicas = Option.none ∨ d.spec.replicas = Option.some 0)) :
    Controller.isGalleyDeploymentRunning env = Except.ok false := by
  rcases h with h | ⟨d, hd, hr | hr⟩
  · simp [Controller.isGalleyDeploymentRunning, h]
  · simp [Controller.isGalleyDeploymentRunning, hd, hr]
  · simp [Controller.isGalleyDeploymentRunning, hd, hr]

/-- Claim C1: while the sticky readiness flag is false, a not-found Endpoints
object, zero subsets, or no subset with an address makes reconcileRequest
return no error without building desired state and without touching the
target resource; a subset with at least one address sets the flag true and
the pass proceeds to the later gates. -/
theorem readiness_gate_blocks_until_ready (c : Controller) (env : Env)
    (hflag : c.endpointReadyOnce = false) :
    ((env.endpoints = CacheLookup.notFound ∨
      ∃ ep, env.endpoints = CacheLookup.found ep ∧
        (ep.subsets = [] ∨ ∀ s ∈ ep.subsets, s.addresses = [])) →
      (c.reconcileRequest env).error = Option.none ∧
      (c.reconcileRequest env).builtDesired = false ∧
      (c.reconcileRequest env).calls = [] ∧
      (c.reconcileRequest env).readTarget = false) ∧
    (∀ ep, env.endpoints = CacheLookup.found ep →
      (∃ s ∈ ep.subsets, s.addresses ≠ []) →
      (c.reconcileRequest env).endpointReadyOnce = true ∧
      c.reconcileRequest env =
        { Controller.reconcileAfterReadinessGate { c with endpointReadyOnce := true } env with
            readEndpoints := true }) := by
  constructor
  · intro h
    have hnr : Controller.isEndpointReady env = Except.ok false := by
      rcases h with hnf | ⟨ep, hep, hcond⟩
      · simp [Controller.isEndpointReady, hnf]
      · have hfst : (isEndpointReady ep).fst = false := by
          rcases hb : (isEndpointReady ep).fst
          · rfl
          · exfalso
            rcases (isEndpointReady_fst_true_iff ep).mp hb with ⟨s, hs, hne⟩
            rcases hcond with hnil | hall
            · rw [hnil] at hs
              simp at hs
            · exact hne (hall s hs)
        simp [Controller.isEndpointReady, hep, isEndpointReadyFn, hfst]
    simp [Controller.reconcileRequest, hflag, hnr]
  · intro ep hep hex
    have hr : Controller.isEndpointReady env = Except.ok true := by
      simp [Controller.isEndpointReady, hep, isEndpointReadyFn,
        (isEndpointReady_fst_true_iff ep).mpr hex]
    constructor
    · simp [Controller.reconcileRequest, hflag, hr]
      exact (afterReadinessGate_bookkeeping { c with endpointReadyOnce := true } env).1
    · simp [Controller.reconcileRequest, hflag, hr]

/-- Evaluation of the readiness gate on a concrete pass whose Endpoints
object is absent from the cache. -/
theorem readiness_gate_blocks_until_ready_witness :
    (demoController.reconcileRequest demoEnvBase).error = Option.none ∧
    (demoController.reconcileRequest demoEnvBase).builtDesired = false ∧
    (demoController.reconcileRequest demoEnvBase).calls = [] ∧
    (demoController.reconcileRequest demoEnvBase).readTarget = false :=
  (readiness_gate_blocks_until_ready demoController demoEnvBase rfl).1 (Or.inl rfl)

/-- Claim C8: the readiness flag is one-way: with the flag already true a
pass keeps it true, performs no endpoint lookup, and its outcome is unchanged
by whatever the Endpoints cache now holds, including an empty or deleted
endpoint. -/
theorem sticky_readiness_flag (c : Controller) (env : Env)
    (hflag : c.endpointReadyOnce = true) :
    (c.reconcileRequest env).endpointReadyOnce = true ∧
    (c.reconcileRequest env).readEndpoints = false ∧
    ∀ ep, c.reconcileRequest { env with endpoints := ep } = c.reconcileRequest env := by
  refine ⟨?_, ?_, ?_⟩
  · simp only [Controller.reconcileRequest, hflag, if_true]
    exact (afterReadinessGate_bookkeeping c env).1.trans hflag
  · simp only [Controller.reconcileRequest, hflag, if_true]
    exact (afterReadinessGate_bookkeeping c env).2
  · intro ep
    simp only [Controller.reconcileRequest, hflag, if_true]
    rfl

/-- Evaluation of the sticky flag on a concrete ready controller, with the
endpoint cache switched to an empty Endpoints object. -/
theorem sticky_readiness_flag_witness :
    (demoControllerReady.reconcileRequest demoEnvBase).endpointReadyOnce = true ∧
    (demoControllerReady.reconcileRequest demoEnvBase).readEndpoints = false ∧
    demoControllerReady.reconcileRequest
        { demoEnvBase with endpoints := CacheLookup.found { subsets := [] } } =
      demoControllerReady.reconcileRequest demoEnvBase := by
  obtain ⟨h1, h2, h3⟩ := sticky_readiness_flag demoControllerReady demoEnvBase rfl
  exact ⟨h1, h2, h3 (CacheLookup.found { subsets := [] })⟩

/-- Claim C2: with a non-empty galley deployment name, past the readiness
gate, a cache hit with a non-nil nonzero replica count defers the pass with
no error, no desired-state build, and no read or write of the target
resource; an absent deployment or a nil or zero replica count lets the pass
proceed as the converge tail. -/
theorem galley_gate_defers_to_legacy (c : Controller) (env : Env)
    (hready : passesReadinessGate c env)
    (hname : c.o.galleyDeploymentName ≠ "") :
    ((∃ d n, env.galley = CacheLookup.found d ∧ d.spec.replicas = Option.some n ∧ n ≠ 0) →
      (c.reconcileRequest env).error = Option.none ∧
      (c.reconcileRequest env).builtDesired = false ∧
      (c.reconcileRequest env).readTarget = false ∧
      (c.reconcileRequest env).calls = []) ∧
    ((env.galley = CacheLookup.notFound ∨
      ∃ d, env.galley = CacheLookup.found d ∧
        (d.spec.replicas = Option.none ∨ d.spec.replicas = Option.some 0)) →
      (c.reconcileRequest env).error =
        (Controller.reconcileAfterGalleyGate { c with endpointReadyOnce := true } env).error ∧
      (c.reconcileRequest env).calls =
        (Controller.reconcileAfterGalleyGate { c with endpointReadyOnce := true } env).calls ∧
      (c.reconcileRequest env).signals =
        (Controller.reconcileAfterGalleyGate { c with endpointReadyOnce := true } env).signals ∧
      (c.reconcileRequest env).builtDesired =
        (Controller.reconcileAfterGalleyGate { c with endpointReadyOnce := true } env).builtDesired ∧
      (c.reconcileRequest env).readTarget =
        (Controller.reconcileAfterGalleyGate { c with endpointReadyOnce := true } env).readTarget) := by
  constructor
  · intro ⟨d, n, hd, hr, hn⟩
    have hrun := isGalleyDeploymentRunning_true_of env d n hd hr hn
    obtain ⟨e1, c1, s1, b1, t1⟩ := reconcileRequest_pastReadiness c env hready
    refine ⟨e1.trans ?_, b1.trans ?_, t1.trans ?_, c1.trans ?_⟩ <;>
      simp [Controller.reconcileAfterReadinessGate, hname, hrun]
  · intro h
    have hrun := isGalleyDeploymentRunning_false_of env h
    exact reconcileRequest_converge c env hready (Or.inr hrun)

/-- Evaluation of the legacy gate on a concrete galley deployment running two
replicas. -/
theorem galley_gate_defers_to_legacy_witness :
    (demoControllerGalley.reconcileRequest demoEnvGalleyRunning).error = Option.none ∧
    (demoControllerGalley.reconcileRequest demoEnvGalleyRunning).builtDesired = false ∧
    (demoControllerGalley.reconcileRequest demoEnvGalleyRunning).readTarget = false ∧
    (demoControllerGalley.reconcileRequest demoEnvGalleyRunning).calls = [] :=
  (galley_gate_defers_to_legacy demoControllerGalley demoEnvGalleyRunning (Or.inl rfl)
    (by decide)).1
    ⟨{ spec := { replicas := Option.some 2 } }, 2, rfl, rfl, by decide⟩

/-- Claim C3: a pass that reaches the converge branch and whose build fails
with a ConfigError reports the config-load-error signal keyed by the reason
string and returns no error, so the queue forgets the item instead of
retrying it. -/
theorem config_error_reported_not_retried (c : Controller) (env : Env) (ce : ConfigError)
    (h1 : passesReadinessGate c env) (h2 : passesGalleyGate c env)
    (hunreg : c.o.unregisterValidationWebhook = false)
    (hbuild : Controller.buildValidatingWebhookConfiguration c env = Except.error ce) :
    (c.reconcileRequest env).error = Option.none ∧
    (c.reconcileRequest env).signals = [Signal.validationConfigLoadError ce.reason] ∧
    processNextWorkItemAction (c.reconcileRequest env).error = QueueAction.forget := by
  obtain ⟨e1, c1, s1, b1, t1⟩ := reconcileRequest_converge c env h1 h2
  have hbuild2 : Controller.buildValidatingWebhookConfiguration
      { c with endpointReadyOnce := true } env = Except.error ce := hbuild
  have he : (c.reconcileRequest env).error = Option.none := by
    rw [e1]
    simp [Controller.reconcileAfterGalleyGate, hunreg, hbuild2]
  have hs : (c.reconcileRequest env).signals = [Signal.validationConfigLoadError ce.reason] := by
    rw [s1]
    simp [Controller.reconcileAfterGalleyGate, hunreg, hbuild2]
  exact ⟨he, hs, by rw [he]; rfl⟩

/-- Evaluation of the absorbed ConfigError on a concrete template that fails
to decode. -/
theorem config_error_reported_not_retried_witness :
    (demoControllerReady.reconcileRequest demoEnvBadDecode).error = Option.none ∧
    (demoControllerReady.reconcileRequest demoEnvBadDecode).signals =
      [Signal.validationConfigLoadError "could not decode validatingwebhookconfiguration file"] ∧
    processNextWorkItemAction (demoControllerReady.reconcileRequest demoEnvBadDecode).error =
      QueueAction.forget :=
  config_error_reported_not_retried demoControllerReady demoEnvBadDecode
    { message := "yaml: unmarshal errors",
      reason := "could not decode validatingwebhookconfiguration file" }
    (Or.inl rfl) (Or.inl rfl) rfl rfl

/-- Claim C7: a pass with the unregister flag set that reaches past both
gates issues exactly one delete call, never a create or update, and never
builds desired state; a delete failure propagates as a retryable error and is
reported through the delete-error signal. -/
theorem unregister_mode_deletes_only (c : Controller) (env : Env)
    (h1 : passesReadinessGate c env) (h2 : passesGalleyGate c env)
    (hunreg : c.o.unregisterValidationWebhook = true) :
    (c.reconcileRequest env).calls = [ApiCall.delete] ∧
    (c.reconcileRequest env).builtDesired = false ∧
    (∀ cfg, ApiCall.create cfg ∉ (c.reconcileRequest env).calls ∧
      ApiCall.update cfg ∉ (c.reconcileRequest env).calls) ∧
    (∀ e, env.deleteOutcome = Option.some e →
      (c.reconcileRequest env).error = Option.some e.message ∧
      (c.reconcileRequest env).signals = [Signal.validationConfigDeleteError e.reason] ∧
      processNextWorkItemAction (c.reconcileRequest env).error = QueueAction.addRateLimited) ∧
    (env.deleteOutcome = Option.none → (c.reconcileRequest env).error = Option.none) := by
  obtain ⟨e1, c1, s1, b1, t1⟩ := reconcileRequest_converge c env h1 h2
  have hcalls : (c.reconcileRequest env).calls = [ApiCall.delete] := by
    rw [c1]
    rcases hd : env.deleteOutcome with _ | e <;>
      simp [Controller.reconcileAfterGalleyGate, hunreg,
        Controller.deleteValidatingWebhookConfiguration, hd]
  refine ⟨hcalls, ?_, ?_, ?_, ?_⟩
  · rw [b1]
    simp [Controller.reconcileAfterGalleyGate, hunreg]
  · intro cfg
    rw [hcalls]
    constructor <;> simp
  · intro e hd
    have he : (c.reconcileRequest env).error = Option.some e.message := by
      rw [e1]
      simp [Controller.reconcileAfterGalleyGate, hunreg,
        Controller.deleteValidatingWebhookConfiguration, hd]
    refine ⟨he, ?_, by rw [he]; rfl⟩
    rw [s1]
    simp [Controller.reconcileAfterGalleyGate, hunreg,
      Controller.deleteValidatingWebhookConfiguration, hd]
  · intro hd
    rw [e1]
    simp [Controller.reconcileAfterGalleyGate, hunreg,
      Controller.deleteValidatingWebhookConfiguration, hd]

/-- Evaluation of unregister mode on a concrete failing delete call. -/
theorem unregister_mode_deletes_only_witness :
    (demoControllerUnregister.reconcileRequest demoEnvDeleteFails).calls = [ApiCall.delete] ∧
    (demoControllerUnregister.reconcileRequest demoEnvDeleteFails).builtDesired = false ∧
    (demoControllerUnregister.reconcileRequest demoEnvDeleteFails).error =
      Option.some "delete failed" ∧
    (demoControllerUnregister.reconcileRequest demoEnvDeleteFails).signals =
      [Signal.validationConfigDeleteError "InternalError"] ∧
    processNextWorkItemAction
      (demoControllerUnregister.reconcileRequest demoEnvDeleteFails).error =
      QueueAction.addRateLimited := by
  obtain ⟨h1, h2, _, h4, _⟩ :=
    unregister_mode_deletes_only demoControllerUnregister demoEnvDeleteFails (Or.inl rfl)
      (Or.inl rfl) rfl
  obtain ⟨ha, hb, hc⟩ := h4 { message := "delete failed", reason := "InternalError" } rfl
  exact ⟨h1, h2, ha, hb, hc⟩

/-- The default-filling loop body yields entries whose three optional fields
are populated, with the documented defaults for omitted ones. -/
theorem fillWebhookDefaults_spec (w : Webhook) :
    (fillWebhookDefaults w).failurePolicy.isSome = true ∧
    (fillWebhookDefaults w).namespaceSelector.isSome = true ∧
    (fillWebhookDefaults w).sideEffects.isSome = true ∧
    (w.failurePolicy = Option.none →
      (fillWebhookDefaults w).failurePolicy = Option.some FailurePolicyType.Fail) ∧
    (w.namespaceSelector = Option.none →
      (fillWebhookDefaults w).namespaceSelector =
        Option.some { matchLabels := [], matchExpressions := [] }) ∧
    (w.sideEffects = Option.none →
      (fillWebhookDefaults w).sideEffects = Option.some SideEffectClass.Unknown) := by
  rcases w with ⟨n, cc, r, fp, ns, se⟩
  cases fp <;> cases ns <;> cases se <;> simp [fillWebhookDefaults]

/-- Claim C4: for a template that decodes, a CA bundle yielding no PEM block,
a first block of a type other than CERTIFICATE, or CERTIFICATE contents
failing X.509 parsing makes the build fail with the CA-verification reason
tag (the code string "could not verify caBundle", which the spec words as
"could not verify CA bundle"), never the generic decode tag; a CERTIFICATE
block whose contents parse makes the build succeed with the raw CA bytes
verbatim as the client-config CA bundle of every entry. -/
theorem ca_bundle_verification (k : Codec) (caBundle webhook : Bytes)
    (ownerRefs : List OwnerReference) (cfg0 : ValidatingWebhookConfiguration)
    (hdec : k.decode webhook = Except.ok cfg0) :
    ((k.pemDecode caBundle = Option.none ∨
      (∃ b rest, k.pemDecode caBundle = Option.some (b, rest) ∧
        b.blockType ≠ "CERTIFICATE") ∨
      (∃ b rest e, k.pemDecode caBundle = Option.some (b, rest) ∧
        b.blockType = "CERTIFICATE" ∧ k.parseCertificate b.bytes = Option.some e)) →
      ∃ ce, buildValidatingWebhookConfiguration k caBundle webhook ownerRefs =
          Except.error ce ∧
        ce.reason = "could not verify caBundle" ∧
        ce.reason ≠ "could not decode validatingwebhookconfiguration file") ∧
    (∀ b rest, k.pemDecode caBundle = Option.some (b, rest) → b.blockType = "CERTIFICATE" →
      k.parseCertificate b.bytes = Option.none →
      ∃ cfg, buildValidatingWebhookConfiguration k caBundle webhook ownerRefs =
          Except.ok cfg ∧
        ∀ w ∈ cfg.webhooks, w.clientConfig.caBundle = caBundle) := by
  have hdecode : decodeValidatingConfig k webhook =
      Except.ok { cfg0 with webhooks := cfg0.webhooks.map fillWebhookDefaults } := by
    simp [decodeValidatingConfig, hdec]
  constructor
  · intro h
    have hver : ∃ msg, verifyCABundle k caBundle = Option.some msg := by
      rcases h with h | ⟨b, rest, hb, hty⟩ | ⟨b, rest, e, hb, hty, hpc⟩
      · exact ⟨"could not decode pem", by simp [verifyCABundle, h]⟩
      · refine ⟨"cert contains wrong pem type: " ++ goQuote b.blockType, ?_⟩
        simp [verifyCABundle, hb, hty]
      · refine ⟨"cert contains invalid x509 certificate: " ++ e, ?_⟩
        simp [verifyCABundle, hb, hty, hpc]
    obtain ⟨msg, hver⟩ := hver
    have hne : ("could not verify caBundle" : String) ≠
        "could not decode validatingwebhookconfiguration file" := by decide
    refine ⟨{ message := msg, reason := "could not verify caBundle" }, ?_, rfl, hne⟩
    simp [buildValidatingWebhookConfiguration, hdecode, hver]
  · intro b rest hb hty hpc
    have hver : verifyCABundle k caBundle = Option.none := by
      simp [verifyCABundle, hb, hty, hpc]
    have hbuild : buildValidatingWebhookConfiguration k caBundle webhook ownerRefs =
        Except.ok { metadata := { cfg0.metadata with ownerReferences := ownerRefs },
                    webhooks := (cfg0.webhooks.map fillWebhookDefaults).map
                      (fun w =>
                        { w with clientConfig :=
                            { w.clientConfig with caBundle := caBundle } }) } := by
      simp [buildValidatingWebhookConfiguration, hdecode, hver]
    refine ⟨_, hbuild, ?_⟩
    intro w hw
    rcases List.mem_map.mp (by simpa using hw) with ⟨w0, hw0, hweq⟩
    rw [← hweq]

/-- Evaluation of CA verification on a concrete undecodable bundle and on a
concrete well-formed one. -/
theorem ca_bundle_verification_witness :
    buildReason (buildValidatingWebhookConfiguration demoCodecBadPem [9] [7] []) =
      Option.some "could not verify caBundle" ∧
    builtCABundlesAll (buildValidatingWebhookConfiguration demoCodecOk [1, 2] [7] [])
      [1, 2] = true := by
  constructor
  · obtain ⟨ce, h1, h2, _⟩ :=
      (ca_bundle_verification demoCodecBadPem [9] [7] [] demoConfig rfl).1 (Or.inl rfl)
    rw [h1]
    simp [buildReason, h2]
  · obtain ⟨cfg, h1, h2⟩ :=
      (ca_bundle_verification demoCodecOk [1, 2] [7] [] demoConfig rfl).2
        { blockType := "CERTIFICATE", bytes := [1, 2], headers := [] } [] rfl rfl rfl
    rw [h1]
    simp only [builtCABundlesAll, List.all_eq_true]
    intro w hw
    simpa using h2 w hw

/-- Claim C5: a successfully decoded template has every omitted failure
policy set to Fail, every omitted namespace selector set to the empty
match-all selector, every omitted side-effects classification set to
Unknown, and afterwards every entry carries all three fields. -/
theorem decode_fills_defaults (k : Codec) (encoded : Bytes)
    (cfg : ValidatingWebhookConfiguration)
    (hdec : k.decode encoded = Except.ok cfg) :
    ∃ cfg2, decodeValidatingConfig k encoded = Except.ok cfg2 ∧
      (∀ w ∈ cfg2.webhooks, w.failurePolicy.isSome = true ∧
        w.namespaceSelector.isSome = true ∧ w.sideEffects.isSome = true) ∧
      cfg2.webhooks.length = cfg.webhooks.length ∧
      ∀ i (hi : i < cfg.webhooks.length) (hi2 : i < cfg2.webhooks.length),
        ((cfg.webhooks.get ⟨i, hi⟩).failurePolicy = Option.none →
          (cfg2.webhooks.get ⟨i, hi2⟩).failurePolicy =
            Option.some FailurePolicyType.Fail) ∧
        ((cfg.webhooks.get ⟨i, hi⟩).namespaceSelector = Option.none →
          (cfg2.webhooks.get ⟨i, hi2⟩).namespaceSelector =
            Option.some { matchLabels := [], matchExpressions := [] }) ∧
        ((cfg.webhooks.get ⟨i, hi⟩).sideEffects = Option.none →
          (cfg2.webhooks.get ⟨i, hi2⟩).sideEffects =
            Option.some SideEffectClass.Unknown) := by
  refine ⟨{ cfg with webhooks := cfg.webhooks.map fillWebhookDefaults }, ?_, ?_, by simp, ?_⟩
  · simp [decodeValidatingConfig, hdec]
  · intro w hw
    rcases List.mem_map.mp (by simpa using hw) with ⟨w0, hw0, hweq⟩
    obtain ⟨h1, h2, h3, _⟩ := fillWebhookDefaults_spec w0
    rw [← hweq]
    exact ⟨h1, h2, h3⟩
  · intro i hi hi2
    have hget : ({ cfg with webhooks := cfg.webhooks.map fillWebhookDefaults } :
        ValidatingWebhookConfiguration).webhooks.get ⟨i, hi2⟩ =
        fillWebhookDefaults (cfg.webhooks.get ⟨i, hi⟩) := by
      simp [List.getElem_map]
    rw [hget]
    obtain ⟨_, _, _, h4, h5, h6⟩ := fillWebhookDefaults_spec (cfg.webhooks.get ⟨i, hi⟩)
    exact ⟨h4, h5, h6⟩

/-- Evaluation of default filling on a concrete entry omitting all three
fields. -/
theorem decode_fills_defaults_witness :
    decodedDefaultsFilled (decodeValidatingConfig demoCodecOk [7]) = true := by
  obtain ⟨cfg2, h1, h2, _⟩ := decode_fills_defaults demoCodecOk [7] demoConfig rfl
  rw [h1]
  simp only [decodedDefaultsFilled, List.all_eq_true]
  intro w hw
  obtain ⟨ha, hb, hc⟩ := h2 w hw
  simp [ha, hb, hc]

/-- Claim C6: with a current resource in the cache, the apply step builds the
updated object as a copy of current replacing only the webhook list and the
owner references, preserving name, namespace, resource version, uid and
labels, and issues an update call exactly when the copy differs structurally
from current; a desired state matching current in webhook entries and owner
references issues no call. -/
theorem update_overwrites_only_webhooks_and_owners (env : Env)
    (desired current : ValidatingWebhookConfiguration)
    (hcur : env.currentConfig = Option.some current) :
    (updatedCopy current desired).webhooks = desired.webhooks ∧
    (updatedCopy current desired).metadata.ownerReferences =
      desired.metadata.ownerReferences ∧
    (updatedCopy current desired).metadata.name = current.metadata.name ∧
    (updatedCopy current desired).metadata.namespaceName = current.metadata.namespaceName ∧
    (updatedCopy current desired).metadata.resourceVersion =
      current.metadata.resourceVersion ∧
    (updatedCopy current desired).metadata.uid = current.metadata.uid ∧
    (updatedCopy current desired).metadata.labels = current.metadata.labels ∧
    ((Controller.updateValidatingWebhookConfiguration env desired).calls = [] ↔
      updatedCopy current desired = current) ∧
    (updatedCopy current desired ≠ current →
      (Controller.updateValidatingWebhookConfiguration env desired).calls =
        [ApiCall.update (updatedCopy current desired)]) ∧
    ((desired.webhooks = current.webhooks ∧
      desired.metadata.ownerReferences = current.metadata.ownerReferences) →
      (Controller.updateValidatingWebhookConfiguration env desired).calls = []) := by
  have hiff : (Controller.updateValidatingWebhookConfiguration env desired).calls = [] ↔
      updatedCopy current desired = current := by
    by_cases heq : updatedCopy current desired = current
    · simp [Controller.updateValidatingWebhookConfiguration, hcur, heq]
    · rcases hu : env.updateOutcome with _ | e <;>
        simp [Controller.updateValidatingWebhookConfiguration, hcur, heq, hu]
  refine ⟨rfl, rfl, rfl, rfl, rfl, rfl, rfl, hiff, ?_, ?_⟩
  · intro hne
    rcases hu : env.updateOutcome with _ | e <;>
      simp [Controller.updateValidatingWebhookConfiguration, hcur, hne, hu]
  · intro ⟨hw, ho⟩
    rw [hiff]
    rcases current with ⟨⟨mn, mns, mrv, mu, ml, mor⟩, cw⟩
    simp only at hw ho
    simp [updatedCopy, hw, ho]

/-- Evaluation of the apply step on a concrete desired state identical to the
cached current resource. -/
theorem update_overwrites_only_webhooks_and_owners_witness :
    (updatedCopy demoConfig demoConfig).metadata.resourceVersion =
      demoConfig.metadata.resourceVersion ∧
    (Controller.updateValidatingWebhookConfiguration demoEnvWithCurrent demoConfig).calls =
      [] := by
  obtain ⟨_, _, _, _, h5, _, _, _, _, h10⟩ :=
    update_overwrites_only_webhooks_and_owners demoEnvWithCurrent demoConfig demoConfig rfl
  exact ⟨h5, h10 ⟨rfl, rfl⟩⟩

/-- Claim C9, refuted as stated: Options.Validate aggregates one message per
violated constraint, but on fully valid Options it returns the Go error
interface wrapping the nil multierror pointer (the final return statement
hands the typed pointer to the error interface), which is not the nil error
value the claim describes. -/
theorem validate_returns_typed_nil_on_valid_options :
    demoOptions.Validate = GoError.multiError Option.none ∧
    demoOptions.Validate ≠ GoError.nilInterface ∧
    demoOptionsInvalid.Validate = GoError.multiError (Option.some
      ["invalid webhook name: \"\"", "invalid namespace: \"\"",
       "invalid deployment name: \"Galley\"", "invalid service name: \"\"",
       "CA cert file not specified", "webhook config file not specified"]) := by
  refine ⟨by decide, by decide, by decide⟩

/-- Claim C10: a failed template-file read or CA-file read makes the build
step return a ConfigError carrying the corresponding read reason, which the
reconciler absorbs exactly like a decode or verification ConfigError: the
config-load-error signal fires, no error is returned, and the queue forgets
the item. -/
theorem file_read_failures_absorbed (c : Controller) (env : Env)
    (h1 : passesReadinessGate c env) (h2 : passesGalleyGate c env)
    (hunreg : c.o.unregisterValidationWebhook = false) :
    (∀ e, env.readWebhookConfigFile = Except.error e →
      Controller.buildValidatingWebhookConfiguration c env = Except.error
        { message := e, reason := "could not read validatingwebhookconfiguration file" } ∧
      (c.reconcileRequest env).error = Option.none ∧
      (c.reconcileRequest env).signals =
        [Signal.validationConfigLoadError
          "could not read validatingwebhookconfiguration file"] ∧
      processNextWorkItemAction (c.reconcileRequest env).error = QueueAction.forget) ∧
    (∀ e ca, env.readWebhookConfigFile = Except.ok ca →
      env.readCAFile = Except.error e →
      Controller.buildValidatingWebhookConfiguration c env = Except.error
        { message := e, reason := "could not read caBundle file" } ∧
      (c.reconcileRequest env).error = Option.none ∧
      (c.reconcileRequest env).signals =
        [Signal.validationConfigLoadError "could not read caBundle file"] ∧
      processNextWorkItemAction (c.reconcileRequest env).error = QueueAction.forget) := by
  have main : ∀ ce : ConfigError,
      Controller.buildValidatingWebhookConfiguration c env = Except.error ce →
      (c.reconcileRequest env).error = Option.none ∧
      (c.reconcileRequest env).signals = [Signal.validationConfigLoadError ce.reason] := by
    intro ce hbuild
    obtain ⟨e1, c1, s1, b1, t1⟩ := reconcileRequest_converge c env h1 h2
    have hbuild2 : Controller.buildValidatingWebhookConfiguration
        { c with endpointReadyOnce := true } env = Except.error ce := hbuild
    constructor
    · rw [e1]
      simp [Controller.reconcileAfterGalleyGate, hunreg, hbuild2]
    · rw [s1]
      simp [Controller.reconcileAfterGalleyGate, hunreg, hbuild2]
  constructor
  · intro e hfile
    have hbuild : Controller.buildValidatingWebhookConfiguration c env = Except.error
        { message := e, reason := "could not read validatingwebhookconfiguration file" } := by
      simp [Controller.buildValidatingWebhookConfiguration, hfile]
    obtain ⟨he, hs⟩ := main _ hbuild
    exact ⟨hbuild, he, hs, by rw [he]; rfl⟩
  · intro e ca hfile hca
    have hbuild : Controller.buildValidatingWebhookConfiguration c env = Except.error
        { message := e, reason := "could not read caBundle file" } := by
      simp [Controller.buildValidatingWebhookConfiguration, hfile, hca]
    obtain ⟨he, hs⟩ := main _ hbuild
    exact ⟨hbuild, he, hs, by rw [he]; rfl⟩

/-- Evaluation of both failed-read paths on concrete environments. -/
theorem file_read_failures_absorbed_witness :
    Controller.buildValidatingWebhookConfiguration demoControllerReady demoEnvBadFile =
      Except.error { message := "read failure",
                     reason := "could not read validatingwebhookconfiguration file" } ∧
    (demoControllerReady.reconcileRequest demoEnvBadFile).error = Option.none ∧
    Controller.buildValidatingWebhookConfiguration demoControllerReady demoEnvBadCAFile =
      Except.error { message := "ca read failure",
                     reason := "could not read caBundle file" } ∧
    (demoControllerReady.reconcileRequest demoEnvBadCAFile).signals =
      [Signal.validationConfigLoadError "could not read caBundle file"] := by
  obtain ⟨hb1, he1, _, _⟩ :=
    (file_read_failures_absorbed demoControllerReady demoEnvBadFile (Or.inl rfl)
      (Or.inl rfl) rfl).1 "read failure" rfl
  obtain ⟨hb2, _, hs2, _⟩ :=
    (file_read_failures_absorbed demoControllerReady demoEnvBadCAFile (Or.inl rfl)
      (Or.inl rfl) rfl).2 "ca read failure" [7] rfl rfl
  exact ⟨hb1, he1, hb2, hs2⟩
